import Mathlib

/-!
# Verification of the droplet packet-telemetry core

A shallow embedding of the repository's pcap capture worker
(`pcap` package, `worker.go`) and the UDP path of the flow generator
(`flowgenerator/flow_udp.go`), with theorems settling the frozen claims.

Conventions of the embedding:
* Go machine integers are modelled as `Nat` (unsigned) or `Int` (signed,
  e.g. `time.Duration`), with explicit bounds or `% 2^w` where a width
  matters.
* Go maps are modelled as association lists; `container/list` lists as
  Lean lists.
* Fallible or panicking code returns `Option` (`none` = panic for the
  filename formatting chain, which is the only panic source here).
* External collaborators (the buffered pcap writer, `net.IP`, the time
  formatter, and the flow-generator helpers that live in this repository
  but outside the provided sources) are modelled from the specification;
  each such definition carries a doc comment saying so.
-/

namespace Droplet

/-- A 16-byte IPv6 address, modelled as the four 32-bit little-endian words
in which `getWriterIpv6Key` reads it (each field is a `uint32` value). -/
structure IPv6 where
  w0 : Nat
  w1 : Nat
  w2 : Nat
  w3 : Nat
deriving DecidableEq

/-- Modelled from `net.IP.IsMulticast` (external): a 16-byte address is
multicast iff its first byte is `0xFF`; the first byte is the low byte of
the first little-endian word. -/
def IPv6.isMulticast (ip : IPv6) : Bool :=
  ip.w0 % 256 == 0xff

/-- `datatype.EndpointInfo` (external), the fields the core reads. -/
structure EndpointInfo where
  l3EpcId : Int
  l2End : Bool
deriving DecidableEq

/-- `datatype.EndpointData` (external). -/
structure EndpointData where
  srcInfo : EndpointInfo
  dstInfo : EndpointInfo
deriving DecidableEq

/-- One element of `PolicyData.AclActions` (external): its ACL group id
(`GetACLGID`) and action-flag bitmask (`GetActionFlags`). -/
structure AclAction where
  aclGID : Nat
  actionFlags : Nat
deriving DecidableEq

/-- `datatype.PolicyData` (external), the field the core reads. -/
structure PolicyData where
  aclActions : List AclAction
deriving DecidableEq

/-- `datatype.MetaPacket` (external input record): the fields the core
reads. `endpointData`/`policyData` are `Option` because the code checks
them against nil. -/
structure MetaPacket where
  timestamp : Int
  inPort : Nat
  ethType : Nat
  protocol : Nat
  ipSrc : Nat
  ipDst : Nat
  ip6Src : IPv6
  ip6Dst : IPv6
  portSrc : Nat
  portDst : Nat
  macSrc : Nat
  macDst : Nat
  l2End0 : Bool
  l2End1 : Bool
  packetLen : Nat
  endpointData : Option EndpointData
  policyData : Option PolicyData
deriving DecidableEq

/-- `BROADCAST_MAC = datatype.MacInt(^uint64(0) >> 16)`. -/
def BROADCAST_MAC : Nat := (2 ^ 64 - 1) >>> 16

/-- `BROADCAST_IP = datatype.IPv4Int(^uint32(0))`. -/
def BROADCAST_IP : Nat := 2 ^ 32 - 1

/-- `layers.EthernetTypeIPv6` (external gopacket constant). -/
def EthernetTypeIPv6 : Nat := 0x86DD

/-- Modelled from the spec: `datatype.ACTION_PACKET_CAPTURING` (external
constant), the packet-capturing bit of the action-flag bitmask; its exact
bit position is immaterial to the claims. -/
def ACTION_PACKET_CAPTURING : Nat := 1

/-- `zerodoc.ToR` (external constant); `tapTypeToString` compares against
the literal 3. -/
def ToR : Nat := 3

/-- `getWriterIpv6Key`: xor the address's four 32-bit words, then pack
`(hash << 32) | (aclGID << 16) | tapType`. -/
def getWriterIpv6Key (ip : IPv6) (aclGID tapType : Nat) : Nat :=
  let ipHash := ((ip.w0 ^^^ ip.w1) ^^^ ip.w2) ^^^ ip.w3
  (ipHash <<< 32) ||| (aclGID <<< 16) ||| tapType

/-- `getWriterKey`: pack `(ipv4 << 32) | (aclGID << 16) | tapType`. -/
def getWriterKey (ipInt aclGID tapType : Nat) : Nat :=
  (ipInt <<< 32) ||| (aclGID <<< 16) ||| tapType

/-- Modelled from the spec: observable state of the external buffered pcap
writer (`FileSize`, `BufferSize`, and the buffered/written packet and byte
counters that `GetAndResetStats` returns and clears). -/
structure Writer where
  fileSize : Int
  bufferSize : Int
  totalBufferedCount : Nat
  totalWrittenCount : Nat
  totalBufferedBytes : Nat
  totalWrittenBytes : Nat
deriving DecidableEq

/-- Modelled from the spec: `NewWriter` yields an empty buffered writer. -/
def Writer.new : Writer :=
  { fileSize := 0, bufferSize := 0, totalBufferedCount := 0,
    totalWrittenCount := 0, totalBufferedBytes := 0, totalWrittenBytes := 0 }

/-- Modelled from the spec: `Writer.Write` appends one packet record; the
record lands in the buffer and is counted by the writer's counters. -/
def Writer.write (wr : Writer) (packetLen : Nat) : Writer :=
  { wr with
    bufferSize := wr.bufferSize + packetLen,
    totalBufferedCount := wr.totalBufferedCount + 1,
    totalBufferedBytes := wr.totalBufferedBytes + packetLen }

/-- `WrappedWriter`: an open capture file and its identity. `ip6 = none`
models a nil `net.IP` (an IPv4-keyed writer). -/
structure WrappedWriter where
  writer : Writer
  tapType : Nat
  aclGID : Nat
  ip : Nat
  ip6 : Option IPv6
  mac : Nat
  tid : Nat
  tempFilename : String
  firstPacketTime : Int
  lastPacketTime : Int
deriving DecidableEq

/-- `WorkerCounter` (statsd counters). -/
structure WorkerCounter where
  FileCreations : Nat
  FileCloses : Nat
  FileRejections : Nat
  FileCreationFailures : Nat
  FileWritingFailures : Nat
  BufferedCount : Nat
  WrittenCount : Nat
  BufferedBytes : Nat
  WrittenBytes : Nat
deriving DecidableEq

/-- The all-zero counter block. -/
def WorkerCounter.zero : WorkerCounter :=
  { FileCreations := 0, FileCloses := 0, FileRejections := 0,
    FileCreationFailures := 0, FileWritingFailures := 0,
    BufferedCount := 0, WrittenCount := 0, BufferedBytes := 0,
    WrittenBytes := 0 }

/-- The pcap `Worker`: its configuration, counters, and the two capture-file
registries (`writers` is the Go map keyed by `getWriterKey`;
`writersIpv6` maps hashed keys to buckets). -/
structure Worker where
  index : Nat
  maxConcurrentFiles : Nat
  maxFileSize : Int
  maxFilePeriod : Int
  baseDirectory : String
  writerBufferSize : Nat
  tcpipChecksum : Bool
  counter : WorkerCounter
  writers : List (Nat × WrappedWriter)
  writersIpv6 : List (Nat × List WrappedWriter)
deriving DecidableEq

/-- Association-list lookup, modelling Go map indexing. -/
def mapFind {α : Type} : List (Nat × α) → Nat → Option α
  | [], _ => none
  | e :: rest, k => if e.1 = k then some e.2 else mapFind rest k

/-- Association-list insertion/replacement, modelling Go map assignment. -/
def mapInsert {α : Type} : List (Nat × α) → Nat → α → List (Nat × α)
  | [], k, v => [(k, v)]
  | e :: rest, k, v => if e.1 = k then (k, v) :: rest else e :: mapInsert rest k v

/-- Association-list deletion, modelling Go `delete`. -/
def mapErase {α : Type} : List (Nat × α) → Nat → List (Nat × α)
  | [], _ => []
  | e :: rest, k => if e.1 = k then rest else e :: mapErase rest k

/-- The total number of open capture files a worker holds: IPv4-keyed
writers plus every writer in the IPv6 buckets. -/
def openWriterCount (w : Worker) : Nat :=
  w.writers.length + (w.writersIpv6.map (fun e => e.2.length)).sum

/-- `isISP`. -/
def isISP (inPort : Nat) : Bool :=
  decide (0x10000 ≤ inPort ∧ inPort < 0x20000)

/-- `isTOR`. -/
def isTOR (inPort : Nat) : Bool :=
  decide (0x30000 ≤ inPort ∧ inPort < 0x40000)

/-- Left-pad a string with a character to the given width. -/
def padLeft (c : Char) (width : Nat) (s : String) : String :=
  String.mk (List.replicate (width - s.length) c) ++ s

/-- `macToString`: `%012x`. -/
def macToString (mac : Nat) : String :=
  padLeft '0' 12 (String.mk (Nat.toDigits 16 mac))

/-- `ipToString`: `%03d%03d%03d%03d` of the four big-endian bytes (the
`uint8` casts are the `% 256`). -/
def ipToString (ip : Nat) : String :=
  padLeft '0' 3 (toString ((ip >>> 24) % 256)) ++
  padLeft '0' 3 (toString ((ip >>> 16) % 256)) ++
  padLeft '0' 3 (toString ((ip >>> 8) % 256)) ++
  padLeft '0' 3 (toString (ip % 256))

/-- Modelled from the spec: the canonical text form of an IPv6 address
(external `net.IP.String`); rendered here from its four words. -/
def ip6ToString (ip : IPv6) : String :=
  toString ip.w0 ++ ":" ++ toString ip.w1 ++ ":" ++ toString ip.w2 ++ ":" ++ toString ip.w3

/-- `tapTypeToString`: `3` is rendered `"tor"`, then values up to 30 as
`"isp<N>"`; anything else panics (`none`). The Go `tapType >= 0` conjunct
is vacuous for an unsigned value. -/
def tapTypeToString (tapType : Nat) : Option String :=
  if tapType = 3 then some "tor"
  else if tapType ≤ 30 then some ("isp" ++ toString tapType)
  else none

/-- Modelled from the spec: `formatDuration` renders a timestamp in the
project's fixed, stable, sortable format (external time library); modelled
as the decimal nanosecond count. -/
def formatDuration (d : Int) : String :=
  toString d

/-- `getTempFilename` (free function): temp-file name for an IPv4 writer;
`none` = panic from `tapTypeToString`. -/
def getTempFilename (tapType mac ip : Nat) (firstPacketTime : Int) (index : Nat) : Option String :=
  (tapTypeToString tapType).map (fun t =>
    t ++ "_" ++ macToString mac ++ "_" ++ ipToString ip ++ "_" ++
    formatDuration firstPacketTime ++ "_." ++ toString index ++ ".pcap.temp")

/-- `getTempFilenameByIpv6`. -/
def getTempFilenameByIpv6 (tapType mac : Nat) (ip : IPv6) (firstPacketTime : Int) (index : Nat) : Option String :=
  (tapTypeToString tapType).map (fun t =>
    t ++ "_" ++ macToString mac ++ "_" ++ ip6ToString ip ++ "_" ++
    formatDuration firstPacketTime ++ "_." ++ toString index ++ ".pcap.temp")

/-- `WrappedWriter.getTempFilename`: prefix with `base/<aclGID>/`, choosing
the IPv4 or IPv6 form by whether `ip6` is nil. -/
def WrappedWriter.getTempFilename (w : WrappedWriter) (base : String) : Option String :=
  match w.ip6 with
  | none =>
    (Droplet.getTempFilename w.tapType w.mac w.ip w.firstPacketTime w.tid).map
      (fun f => base ++ "/" ++ toString w.aclGID ++ "/" ++ f)
  | some ip6 =>
    (getTempFilenameByIpv6 w.tapType w.mac ip6 w.firstPacketTime w.tid).map
      (fun f => base ++ "/" ++ toString w.aclGID ++ "/" ++ f)

/-- `WrappedWriter.getFilename`: the final (post-rename) file name. -/
def WrappedWriter.getFilename (w : WrappedWriter) (base : String) : Option String :=
  let ipString := match w.ip6 with
    | none => ipToString w.ip
    | some ip6 => ip6ToString ip6
  (tapTypeToString w.tapType).map (fun t =>
    base ++ "/" ++ toString w.aclGID ++ "/" ++ t ++ "_" ++ macToString w.mac ++
    "_" ++ ipString ++ "_" ++ formatDuration w.firstPacketTime ++ "_" ++
    formatDuration w.lastPacketTime ++ "." ++ toString w.tid ++ ".pcap")

/-- `Worker.shouldCloseFile`: size cap reached, or the packet is more than
`maxFilePeriod` past the file's first packet. -/
def shouldCloseFile (w : Worker) (writer : WrappedWriter) (packet : MetaPacket) : Bool :=
  if writer.writer.fileSize + writer.writer.bufferSize ≥ w.maxFileSize then true
  else if packet.timestamp - writer.firstPacketTime > w.maxFilePeriod then true
  else false

/-- Drain `GetAndResetStats` of a writer into the worker counters,
returning the worker and the writer with cleared counters. -/
def drainStats (w : Worker) (writer : WrappedWriter) : Worker × WrappedWriter :=
  let c := w.counter
  ({ w with counter := { c with
      BufferedCount := c.BufferedCount + writer.writer.totalBufferedCount,
      WrittenCount := c.WrittenCount + writer.writer.totalWrittenCount,
      BufferedBytes := c.BufferedBytes + writer.writer.totalBufferedBytes,
      WrittenBytes := c.WrittenBytes + writer.writer.totalWrittenBytes } },
   { writer with writer := { writer.writer with
      totalBufferedCount := 0, totalWrittenCount := 0,
      totalBufferedBytes := 0, totalWrittenBytes := 0 } })

/-- `Worker.finishWriter`: close the writer, drain its counters, rename the
temp file to `newFilename` (external filesystem effect), bump `FileCloses`.
-/
def finishWriter (w : Worker) (writer : WrappedWriter) (newFilename : String) : Worker :=
  let w1 := (drainStats w writer).1
  let _ := newFilename
  { w1 with counter := { w1.counter with FileCloses := w1.counter.FileCloses + 1 } }

/-- The address argument of `generateWrappedWriter` (`net.IP` whose
`To4()` is non-nil for `v4`). -/
inductive IpAddr where
  | v4 (a : Nat)
  | v6 (a : IPv6)
deriving DecidableEq

/-- `Worker.generateWrappedWriter`. `ioOk` stands for the success of the
external `NewWriter` call (directory creation has no modelled effect).
Outer `none` = panic (from filename formatting); inner `none` = the Go
function's nil return (cap hit or creation failure). -/
def generateWrappedWriter (w : Worker) (ioOk : Bool) (ip : IpAddr)
    (mac tapType aclGID : Nat) (timestamp : Int) :
    Option (Option WrappedWriter × Worker) :=
  if w.writers.length ≥ w.maxConcurrentFiles then
    some (none, { w with counter :=
      { w.counter with FileRejections := w.counter.FileRejections + 1 } })
  else
    let writer0 : WrappedWriter := {
      writer := Writer.new
      tapType := tapType
      aclGID := aclGID
      ip := match ip with | .v4 a => a | .v6 _ => 0
      ip6 := match ip with | .v4 _ => none | .v6 a => some a
      mac := mac
      tid := w.index
      tempFilename := ""
      firstPacketTime := timestamp
      lastPacketTime := timestamp }
    match writer0.getTempFilename w.baseDirectory with
    | none => none
    | some fname =>
      if ioOk then
        some (some { writer0 with tempFilename := fname },
          { w with counter :=
            { w.counter with FileCreations := w.counter.FileCreations + 1 } })
      else
        some (none, { w with counter :=
          { w.counter with FileCreationFailures := w.counter.FileCreationFailures + 1 } })

/-- Success/failure of the external file operations during one call. -/
structure IOEnv where
  newWriterOk : Bool
  writeOk : Bool
deriving DecidableEq

/-- `Worker.writePacket` (IPv4 path). `none` = panic. -/
def writePacket (w0 : Worker) (io : IOEnv) (packet : MetaPacket)
    (tapType ip mac aclGID : Nat) : Option Worker :=
  let key := getWriterKey ip aclGID tapType
  let step1 : Option (Option WrappedWriter × Worker) :=
    match mapFind w0.writers key with
    | some writer =>
      if shouldCloseFile w0 writer packet then
        match writer.getFilename w0.baseDirectory with
        | none => none
        | some newFilename =>
          let w1 := finishWriter w0 writer newFilename
          some (none, { w1 with writers := mapErase w1.writers key })
      else some (some writer, w0)
    | none => some (none, w0)
  match step1 with
  | none => none
  | some (st, w1) =>
    let step2 : Option (Option WrappedWriter × Worker) :=
      match st with
      | some writer => some (some writer, w1)
      | none =>
        match generateWrappedWriter w1 io.newWriterOk (.v4 ip) mac tapType aclGID packet.timestamp with
        | none => none
        | some (none, w2) => some (none, w2)
        | some (some writer, w2) =>
          some (some writer, { w2 with writers := mapInsert w2.writers key writer })
    match step2 with
    | none => none
    | some (none, w2) => some w2
    | some (some writer, w2) =>
      if io.writeOk then
        let writer1 := { writer with writer := writer.writer.write packet.packetLen }
        let pair := drainStats w2 writer1
        let writer2 := { pair.2 with lastPacketTime := packet.timestamp }
        some { pair.1 with writers := mapInsert pair.1.writers key writer2 }
      else
        some { w2 with counter :=
          { w2.counter with FileWritingFailures := w2.counter.FileWritingFailures + 1 } }

/-- The bucket scan of `Worker.getWrappedWriter`: first writer whose stored
address is fully equal (`net.IP.Equal`, 16-byte equality) to the packet's
address. -/
def bucketFind : List WrappedWriter → IPv6 → Option WrappedWriter
  | [], _ => none
  | writer :: rest, ip =>
    if writer.ip6 = some ip then some writer else bucketFind rest ip

/-- Replace (in place) the first occurrence of a writer in a bucket,
modelling mutation through the element pointer. -/
def replaceInBucket : List WrappedWriter → WrappedWriter → WrappedWriter → List WrappedWriter
  | [], _, _ => []
  | e :: rest, oldW, newW =>
    if e = oldW then newW :: rest else e :: replaceInBucket rest oldW newW

/-- `Worker.getWrappedWriter` (IPv6 path): look the bucket up by hashed key
(a missing key yields a fresh empty bucket that is installed in the map),
scan it by full address equality, rotate an aged/full writer, create one on
miss. Outer `none` = panic. -/
def getWrappedWriter (w0 : Worker) (io : IOEnv) (ip : IPv6)
    (mac tapType aclGID : Nat) (packet : MetaPacket) :
    Option (Option WrappedWriter × Worker) :=
  let key := getWriterIpv6Key ip aclGID tapType
  let bucket := (mapFind w0.writersIpv6 key).getD []
  let step1 : Option (Option WrappedWriter × Worker × List WrappedWriter) :=
    match bucketFind bucket ip with
    | some writer =>
      if shouldCloseFile w0 writer packet then
        match writer.getFilename w0.baseDirectory with
        | none => none
        | some newFilename =>
          some (none, finishWriter w0 writer newFilename, bucket.erase writer)
      else some (some writer, w0, bucket)
    | none => some (none, w0, bucket)
  match step1 with
  | none => none
  | some (some writer, w1, bucket1) =>
    some (some writer, { w1 with writersIpv6 := mapInsert w1.writersIpv6 key bucket1 })
  | some (none, w1, bucket1) =>
    match generateWrappedWriter w1 io.newWriterOk (.v6 ip) mac tapType aclGID packet.timestamp with
    | none => none
    | some (none, w2) =>
      some (none, { w2 with writersIpv6 := mapInsert w2.writersIpv6 key bucket1 })
    | some (some writer, w2) =>
      some (some writer,
        { w2 with writersIpv6 := mapInsert w2.writersIpv6 key (bucket1 ++ [writer]) })

/-- `Worker.writePacketIpv6`. `none` = panic. -/
def writePacketIpv6 (w0 : Worker) (io : IOEnv) (packet : MetaPacket)
    (tapType : Nat) (ip : IPv6) (mac aclGID : Nat) : Option Worker :=
  match getWrappedWriter w0 io ip mac tapType aclGID packet with
  | none => none
  | some (none, w1) => some w1
  | some (some writer, w1) =>
    if io.writeOk then
      let writer1 := { writer with writer := writer.writer.write packet.packetLen }
      let pair := drainStats w1 writer1
      let writer2 := { pair.2 with lastPacketTime := packet.timestamp }
      let key := getWriterIpv6Key ip aclGID tapType
      let bucket := (mapFind pair.1.writersIpv6 key).getD []
      let m1 := mapInsert pair.1.writersIpv6 key (replaceInBucket bucket writer writer2)
      some { pair.1 with writersIpv6 := m1 }
    else
      some { w1 with counter :=
        { w1.counter with FileWritingFailures := w1.counter.FileWritingFailures + 1 } }

/-- The tap type and emit set `Worker.Process` derives from one packet.
`ips`/`ip6s` pair each emitted address with its MAC, in emission order. -/
structure EmitSet where
  tapType : Nat
  ips : List (Nat × Nat)
  ip6s : List (IPv6 × Nat)
deriving DecidableEq

/-- The routing-table block of `Worker.Process` (the ISP/ToR `if` ladder):
derive the tap type and emit set, `none` = unroutable `InPort` (drop).
The ISP tap type is `InPort - 0x10000` (the spec's reading of the external
`zerodoc.TAPTypeEnum` conversion). -/
def deriveTapAndEmit (packet : MetaPacket) (epd : EndpointData) : Option EmitSet :=
  if isISP packet.inPort then
    let tapType := packet.inPort - 0x10000
    if packet.ethType ≠ EthernetTypeIPv6 then
      let ips : List (Nat × Nat) := []
      let ips := if epd.srcInfo.l3EpcId ≠ 0 ∧ packet.ipSrc ≠ BROADCAST_IP ∧ packet.macSrc ≠ BROADCAST_MAC
        then ips ++ [(packet.ipSrc, packet.macSrc)] else ips
      let ips := if epd.dstInfo.l3EpcId ≠ 0 ∧ packet.ipDst ≠ BROADCAST_IP ∧ packet.macDst ≠ BROADCAST_MAC
        then ips ++ [(packet.ipDst, packet.macDst)] else ips
      some { tapType := tapType, ips := ips, ip6s := [] }
    else
      let ip6s : List (IPv6 × Nat) := []
      let ip6s := if epd.srcInfo.l3EpcId ≠ 0 ∧ packet.ip6Src.isMulticast = true ∧ packet.macSrc ≠ BROADCAST_MAC
        then ip6s ++ [(packet.ip6Src, packet.macSrc)] else ip6s
      let ip6s := if epd.dstInfo.l3EpcId ≠ 0 ∧ packet.ip6Dst.isMulticast = true ∧ packet.macDst ≠ BROADCAST_MAC
        then ip6s ++ [(packet.ip6Dst, packet.macDst)] else ip6s
      some { tapType := tapType, ips := [], ip6s := ip6s }
  else if isTOR packet.inPort then
    if packet.ethType ≠ EthernetTypeIPv6 then
      let ips : List (Nat × Nat) := []
      let ips := if (packet.l2End0 = true ∨ epd.srcInfo.l2End = true) ∧ packet.ipSrc ≠ BROADCAST_IP ∧ packet.macSrc ≠ BROADCAST_MAC
        then ips ++ [(packet.ipSrc, packet.macSrc)] else ips
      let ips := if (packet.l2End1 = true ∨ epd.dstInfo.l2End = true) ∧ packet.ipDst ≠ BROADCAST_IP ∧ packet.macDst ≠ BROADCAST_MAC
        then ips ++ [(packet.ipDst, packet.macDst)] else ips
      some { tapType := ToR, ips := ips, ip6s := [] }
    else
      let ip6s : List (IPv6 × Nat) := []
      let ip6s := if (packet.l2End0 = true ∨ epd.srcInfo.l2End = true) ∧ packet.ip6Src.isMulticast = false ∧ packet.macSrc ≠ BROADCAST_MAC
        then ip6s ++ [(packet.ip6Src, packet.macSrc)] else ip6s
      let ip6s := if (packet.l2End1 = true ∨ epd.dstInfo.l2End = true) ∧ packet.ip6Dst.isMulticast = false ∧ packet.macDst ≠ BROADCAST_MAC
        then ip6s ++ [(packet.ip6Dst, packet.macDst)] else ip6s
      some { tapType := ToR, ips := [], ip6s := ip6s }
  else
    none

/-- The write fan-out for one matching policy action: one
`writePacket`/`writePacketIpv6` call per emit-set member. -/
def writeForEmit (w : Worker) (io : IOEnv) (packet : MetaPacket)
    (es : EmitSet) (aclGID : Nat) : Option Worker :=
  if packet.ethType ≠ EthernetTypeIPv6 then
    es.ips.foldlM (fun wacc pr => writePacket wacc io packet es.tapType pr.1 pr.2 aclGID) w
  else
    es.ip6s.foldlM (fun wacc pr => writePacketIpv6 wacc io packet es.tapType pr.1 pr.2 aclGID) w

/-- The per-packet body of `Worker.Process` (nil-field guard, routing,
policy loop). Packet release is an external pool effect. `none` = panic. -/
def processPacket (w : Worker) (io : IOEnv) (packet : MetaPacket) : Option Worker :=
  match packet.policyData, packet.endpointData with
  | none, _ => some w
  | _, none => some w
  | some pd, some epd =>
    match deriveTapAndEmit packet epd with
    | none => some w
    | some es =>
      pd.aclActions.foldlM (fun wacc policy =>
        if policy.aclGID ≤ 0 then some wacc
        else if policy.actionFlags &&& ACTION_PACKET_CAPTURING ≠ 0 then
          writeForEmit wacc io packet es policy.aclGID
        else some wacc) w

/-- The IPv4 half of the tick handler in `Worker.Process`: sweep the
writer map, finishing every writer whose first packet is more than
`maxFilePeriod` before `timeNow` (wall clock). Returns the updated worker
(counters) and the surviving entries; `none` = panic. The Go loop deletes
the current map key; the sweep drops the entry instead. -/
def tickSweepV4 (timeNow : Int) : Worker → List (Nat × WrappedWriter) →
    Option (Worker × List (Nat × WrappedWriter))
  | w, [] => some (w, [])
  | w, e :: rest =>
    if timeNow - e.2.firstPacketTime > w.maxFilePeriod then
      match e.2.getFilename w.baseDirectory with
      | none => none
      | some fn => tickSweepV4 timeNow (finishWriter w e.2 fn) rest
    else
      match tickSweepV4 timeNow w rest with
      | none => none
      | some (w1, kept) => some (w1, e :: kept)

/-- One IPv6 bucket of the tick handler: finish aged writers, keep the
rest in order. -/
def tickSweepBucket (timeNow : Int) : Worker → List WrappedWriter →
    Option (Worker × List WrappedWriter)
  | w, [] => some (w, [])
  | w, writer :: rest =>
    if timeNow - writer.firstPacketTime > w.maxFilePeriod then
      match writer.getFilename w.baseDirectory with
      | none => none
      | some fn => tickSweepBucket timeNow (finishWriter w writer fn) rest
    else
      match tickSweepBucket timeNow w rest with
      | none => none
      | some (w1, kept) => some (w1, writer :: kept)

/-- The IPv6 half of the tick handler: sweep every bucket (buckets are
never removed, only their members). -/
def tickSweepV6 (timeNow : Int) : Worker → List (Nat × List WrappedWriter) →
    Option (Worker × List (Nat × List WrappedWriter))
  | w, [] => some (w, [])
  | w, e :: rest =>
    match tickSweepBucket timeNow w e.2 with
    | none => none
    | some (w1, kept) =>
      match tickSweepV6 timeNow w1 rest with
      | none => none
      | some (w2, keptRest) => some (w2, (e.1, kept) :: keptRest)

/-- The tick (`nil` queue element) handler of `Worker.Process`. -/
def processTick (w0 : Worker) (timeNow : Int) : Option Worker :=
  match tickSweepV4 timeNow w0 w0.writers with
  | none => none
  | some (w1, kept4) =>
    match tickSweepV6 timeNow w1 w1.writersIpv6 with
    | none => none
    | some (w2, kept6) =>
      some { w2 with writers := kept4, writersIpv6 := kept6 }

/-! ## Flow generator, UDP path

`processUdpPacket`, `initUdpFlow` and `updateUdpFlow` are embedded from
`src/flowgenerator/flow_udp.go`. The helpers they call (`keyMatch`,
`initFlow`, `updateFlow`, `addFlow`, `updatePlatformData`,
`getQuinTupleHash`) live elsewhere in this repository and are not among
the provided sources; they are modelled from the specification. -/

/-- A flow's 5-tuple, in the orientation of the flow's first packet. -/
structure FlowKey where
  proto : Nat
  ipSrc : Nat
  ipDst : Nat
  portSrc : Nat
  portDst : Nat
deriving DecidableEq

/-- One directional metric peer of a `TaggedFlow`. -/
structure FlowMetricsPeer where
  arrTime0 : Int
  arrTimeLast : Int
  totalPacketCount : Nat
  packetCount : Nat
  totalByteCount : Nat
  byteCount : Nat
deriving DecidableEq

/-- The all-zero metric peer. -/
def FlowMetricsPeer.zero : FlowMetricsPeer :=
  { arrTime0 := 0, arrTimeLast := 0, totalPacketCount := 0,
    packetCount := 0, totalByteCount := 0, byteCount := 0 }

/-- `TaggedFlow`: the 5-tuple, the two metric peers and the
platform/endpoint tags. -/
structure TaggedFlow where
  key : FlowKey
  FlowMetricsPeerSrc : FlowMetricsPeer
  FlowMetricsPeerDst : FlowMetricsPeer
  tagData : Option EndpointData
  tagReversed : Bool
deriving DecidableEq

/-- The flow states the UDP path uses. -/
inductive FlowState where
  | raw
  | established
deriving DecidableEq

/-- `FlowExtra`: a tracked flow record. -/
structure FlowExtra where
  taggedFlow : TaggedFlow
  flowState : FlowState
  timeout : Int
deriving DecidableEq

/-- `TimeoutConfig` fields the UDP path reads. -/
structure TimeoutConfig where
  Opening : Int
  EstablishedRst : Int
deriving DecidableEq

/-- The flow-generator statistics the UDP path touches. -/
structure FlowGenStats where
  CurrNumFlows : Nat
  TotalNumFlows : Nat
  FloodDropPackets : Nat
deriving DecidableEq

/-- The `FlowGenerator` state the UDP path reads and writes. The shard
count `hashMapSize` is `hashMap.length`. -/
structure FlowGenerator where
  hashMap : List (List FlowExtra)
  stats : FlowGenStats
  flowLimitNum : Nat
  TimeoutConfig : TimeoutConfig
deriving DecidableEq

/-- Modelled from the spec: `getQuinTupleHash` (not among the provided
sources) — an order-invariant hash of the 5-tuple, identical for a packet
and its reversed direction. -/
def getQuinTupleHash (meta : MetaPacket) : Nat :=
  (meta.ipSrc ^^^ meta.ipDst) + (meta.portSrc ^^^ meta.portDst) + meta.protocol

/-- The shard index `hash % hashMapSize` selected for a packet. -/
def shardIndex (f : FlowGenerator) (meta : MetaPacket) : Nat :=
  getQuinTupleHash meta % f.hashMap.length

/-- The shard (`flowCache`) selected for a packet:
`f.hashMap[hash % hashMapSize]`. -/
def selectedShard (f : FlowGenerator) (meta : MetaPacket) : List FlowExtra :=
  f.hashMap.getD (shardIndex f meta) []

/-- The packet's 5-tuple equals the flow key in the same orientation. -/
def matchForward (k : FlowKey) (meta : MetaPacket) : Bool :=
  decide (k.proto = meta.protocol ∧ k.ipSrc = meta.ipSrc ∧ k.ipDst = meta.ipDst ∧
    k.portSrc = meta.portSrc ∧ k.portDst = meta.portDst)

/-- The packet's 5-tuple equals the flow key reversed. -/
def matchReverse (k : FlowKey) (meta : MetaPacket) : Bool :=
  decide (k.proto = meta.protocol ∧ k.ipSrc = meta.ipDst ∧ k.ipDst = meta.ipSrc ∧
    k.portSrc = meta.portDst ∧ k.portDst = meta.portSrc)

/-- Modelled from the spec: `keyMatch` (not among the provided sources) —
scan the shard in insertion order for the first flow whose 5-tuple matches
the packet in either direction; `reply` is true when it matches reversed.
Returns the position of the match and the reply flag. -/
def keyMatch : List FlowExtra → MetaPacket → Option (Nat × Bool)
  | [], _ => none
  | fe :: rest, meta =>
    if matchForward fe.taggedFlow.key meta then some (0, false)
    else if matchReverse fe.taggedFlow.key meta then some (0, true)
    else
      match keyMatch rest meta with
      | some (i, reply) => some (i + 1, reply)
      | none => none

/-- Modelled from the spec: `initFlow` (not among the provided sources) —
a fresh flow record for the packet's forward 5-tuple at time `now`, with
zeroed metrics, to be filled in by its caller. -/
def initFlow (meta : MetaPacket) (now : Int) : FlowExtra :=
  let _ := now
  { taggedFlow := {
      key := { proto := meta.protocol, ipSrc := meta.ipSrc, ipDst := meta.ipDst,
               portSrc := meta.portSrc, portDst := meta.portDst }
      FlowMetricsPeerSrc := FlowMetricsPeer.zero
      FlowMetricsPeerDst := FlowMetricsPeer.zero
      tagData := none
      tagReversed := false }
    flowState := FlowState.raw
    timeout := 0 }

/-- Modelled from the spec: `updatePlatformData` (not among the provided
sources) — install the platform/endpoint tags from the packet's
`EndpointData` with the given direction flag. -/
def updatePlatformData (tf : TaggedFlow) (epd : Option EndpointData) (reversed : Bool) : TaggedFlow :=
  { tf with tagData := epd, tagReversed := reversed }

/-- `initUdpFlow` (from `flow_udp.go`): build the flow via `initFlow`, set
the source peer's first/last arrival and counts to this packet, install
tags forward, mark ESTABLISHED with the `Opening` timeout. -/
def initUdpFlow (f : FlowGenerator) (meta : MetaPacket) : FlowExtra :=
  let now := meta.timestamp
  let flowExtra := initFlow meta now
  let tf := flowExtra.taggedFlow
  let tf := { tf with FlowMetricsPeerSrc := { tf.FlowMetricsPeerSrc with
    arrTime0 := now
    arrTimeLast := now
    totalPacketCount := 1
    packetCount := 1
    totalByteCount := meta.packetLen
    byteCount := meta.packetLen } }
  let tf := updatePlatformData tf meta.endpointData false
  { flowExtra with
    taggedFlow := tf
    flowState := FlowState.established
    timeout := f.TimeoutConfig.Opening }

/-- Advance one metric peer by one packet. -/
def bumpPeer (p : FlowMetricsPeer) (meta : MetaPacket) : FlowMetricsPeer :=
  { p with
    arrTimeLast := meta.timestamp
    totalPacketCount := p.totalPacketCount + 1
    packetCount := p.packetCount + 1
    totalByteCount := p.totalByteCount + meta.packetLen
    byteCount := p.byteCount + meta.packetLen }

/-- Modelled from the spec: `updateFlow` (not among the provided sources)
— merge the packet into the matched flow, advancing the byte/packet
counters and `ArrTimeLast` of the peer selected by `reply`; it does not
touch the timeout. -/
def updateFlow (f : FlowGenerator) (fe : FlowExtra) (meta : MetaPacket) (reply : Bool) : FlowExtra :=
  let _ := f
  let tf := fe.taggedFlow
  let tf :=
    if reply then { tf with FlowMetricsPeerDst := bumpPeer tf.FlowMetricsPeerDst meta }
    else { tf with FlowMetricsPeerSrc := bumpPeer tf.FlowMetricsPeerSrc meta }
  { fe with taggedFlow := tf }

/-- `updateUdpFlow` (from `flow_udp.go`): `updateFlow`, then shorten the
timeout to `EstablishedRst` when the packet is a reply. -/
def updateUdpFlow (f : FlowGenerator) (fe : FlowExtra) (meta : MetaPacket) (reply : Bool) : FlowExtra :=
  let fe1 := updateFlow f fe meta reply
  if reply then { fe1 with timeout := f.TimeoutConfig.EstablishedRst } else fe1

/-- Modelled from the spec: `addFlow` (not among the provided sources) —
append the new flow to the shard's insertion-ordered collection. -/
def addFlow (flowCache : List FlowExtra) (fe : FlowExtra) : List FlowExtra :=
  flowCache ++ [fe]

/-- `processUdpPacket` (from `flow_udp.go`). Shard locking disappears in
this sequential embedding; the atomic `CurrNumFlows` add is a plain add. -/
def processUdpPacket (f : FlowGenerator) (meta : MetaPacket) : FlowGenerator :=
  let flowCache := selectedShard f meta
  match keyMatch flowCache meta with
  | some (i, reply) =>
    let fe := flowCache.getD i (initFlow meta meta.timestamp)
    let flowCache1 := flowCache.set i (updateUdpFlow f fe meta reply)
    { f with hashMap := f.hashMap.set (shardIndex f meta) flowCache1 }
  | none =>
    if f.stats.CurrNumFlows ≥ f.flowLimitNum then
      { f with stats := { f.stats with FloodDropPackets := f.stats.FloodDropPackets + 1 } }
    else
      let flowExtra := initUdpFlow f meta
      { f with
        stats := { f.stats with
          TotalNumFlows := f.stats.TotalNumFlows + 1
          CurrNumFlows := f.stats.CurrNumFlows + 1 }
        hashMap := f.hashMap.set (shardIndex f meta) (addFlow flowCache flowExtra) }

/-- The flow record sitting at position `i` of the packet's shard (with a
default that is never used when `i` comes from `keyMatch`). -/
def matchedFlow (f : FlowGenerator) (meta : MetaPacket) (i : Nat) : FlowExtra :=
  (selectedShard f meta).getD i (initFlow meta meta.timestamp)

/-! ## Concrete instances

Small closed workers, packets and flow generators used to witness the
theorems below on explicit inputs. -/

/-- A worker with default-ish configuration and no open files. -/
def baseWorker : Worker :=
  { index := 0, maxConcurrentFiles := 10, maxFileSize := 1000000,
    maxFilePeriod := 60000000000, baseDirectory := "pcap",
    writerBufferSize := 65536, tcpipChecksum := false,
    counter := WorkerCounter.zero, writers := [], writersIpv6 := [] }

/-- An open IPv6 capture file (ToR, ACL group 9). -/
def writerIp6C1 : WrappedWriter :=
  { writer := Writer.new, tapType := 3, aclGID := 9, ip := 0,
    ip6 := some ⟨1, 0, 0, 0⟩, mac := 7, tid := 0, tempFilename := "t",
    firstPacketTime := 0, lastPacketTime := 0 }

/-- A worker whose only open file is IPv6-keyed, with a concurrent-file cap
of 1: its total open-writer count is at the cap while its IPv4 map is
empty. -/
def workerC1 : Worker :=
  { baseWorker with
    maxConcurrentFiles := 1,
    writersIpv6 := [(getWriterIpv6Key ⟨1, 0, 0, 0⟩ 9 3, [writerIp6C1])] }

/-- A worker whose concurrent-file cap is zero. -/
def workerC1w : Worker :=
  { baseWorker with maxConcurrentFiles := 0 }

/-- A plain UDP packet (ISP-range fields are irrelevant to the flow path). -/
def metaU : MetaPacket :=
  { timestamp := 1000, inPort := 0, ethType := 0x0800, protocol := 17,
    ipSrc := 1, ipDst := 2, ip6Src := ⟨0, 0, 0, 0⟩, ip6Dst := ⟨0, 0, 0, 0⟩,
    portSrc := 10, portDst := 20, macSrc := 1, macDst := 2,
    l2End0 := false, l2End1 := false, packetLen := 100,
    endpointData := some { srcInfo := { l3EpcId := 1, l2End := false },
                           dstInfo := { l3EpcId := 0, l2End := false } },
    policyData := none }

/-- A flow generator with one empty shard and a flow limit of zero. -/
def flowGenC4 : FlowGenerator :=
  { hashMap := [[]],
    stats := { CurrNumFlows := 0, TotalNumFlows := 0, FloodDropPackets := 0 },
    flowLimitNum := 0,
    TimeoutConfig := { Opening := 5, EstablishedRst := 3 } }

/-- The same generator with room for one flow. -/
def flowGenC5 : FlowGenerator :=
  { flowGenC4 with flowLimitNum := 1 }

/-- The flow created by `metaU` in `flowGenC5`. -/
def feC6 : FlowExtra := initUdpFlow flowGenC5 metaU

/-- A generator holding that one live flow. -/
def flowGenC6 : FlowGenerator :=
  { flowGenC5 with
    hashMap := [[feC6]],
    stats := { CurrNumFlows := 1, TotalNumFlows := 1, FloodDropPackets := 0 } }

/-- The reverse-direction packet of `metaU`. -/
def metaUreply : MetaPacket :=
  { metaU with
    ipSrc := 2, ipDst := 1, portSrc := 20, portDst := 10,
    timestamp := 2000 }

/-- An open IPv4 capture file first written at time 0. -/
def writerC7 : WrappedWriter :=
  { writer := Writer.new, tapType := 3, aclGID := 9, ip := 1, ip6 := none,
    mac := 7, tid := 0, tempFilename := "t", firstPacketTime := 0,
    lastPacketTime := 0 }

/-- The same file with 2 MB already on disk. -/
def writerC7big : WrappedWriter :=
  { writerC7 with writer := { Writer.new with fileSize := 2000000 } }

/-- A worker holding `writerC7` with a 10 ns file-period cap. -/
def workerC7 : Worker :=
  { baseWorker with
    maxFilePeriod := 10,
    writers := [(getWriterKey 1 9 3, writerC7)] }

/-- Two distinct IPv6 addresses whose xor-folded hashes collide. -/
def ip6a : IPv6 := ⟨1, 0, 0, 0⟩

/-- See `ip6a`. -/
def ip6b : IPv6 := ⟨0, 1, 0, 0⟩

/-- An open IPv6 capture file for `ip6a` (tap 4, ACL group 9). -/
def writerC8 : WrappedWriter :=
  { writer := Writer.new, tapType := 4, aclGID := 9, ip := 0,
    ip6 := some ip6a, mac := 7, tid := 0, tempFilename := "t",
    firstPacketTime := 0, lastPacketTime := 0 }

/-- A worker whose IPv6 registry has one bucket holding `writerC8`. -/
def workerC8 : Worker :=
  { baseWorker with writersIpv6 := [(getWriterIpv6Key ip6a 9 4, [writerC8])] }

/-- Endpoint annotations: source has an EPC and is an L2 end. -/
def epdC9 : EndpointData :=
  { srcInfo := { l3EpcId := 1, l2End := true },
    dstInfo := { l3EpcId := 0, l2End := false } }

/-- An ISP IPv6 packet whose source address is multicast. -/
def packetC9isp : MetaPacket :=
  { metaU with
    inPort := 0x10005, ethType := EthernetTypeIPv6,
    ip6Src := ⟨0xff, 0, 0, 0⟩, ip6Dst := ⟨0, 0, 0, 0⟩ }

/-- A ToR IPv6 packet whose source address is not multicast. -/
def packetC9tor : MetaPacket :=
  { metaU with
    inPort := 0x30000, ethType := EthernetTypeIPv6,
    ip6Src := ⟨1, 0, 0, 0⟩, l2End0 := true }

/-- Endpoint annotations for the panic scenario. -/
def epdC10 : EndpointData :=
  { srcInfo := { l3EpcId := 1, l2End := false },
    dstInfo := { l3EpcId := 0, l2End := false } }

/-- An ISP IPv4 packet with `InPort = 0x1001F` (tap type 31) carrying a
capturing policy action. -/
def packetC10 : MetaPacket :=
  { metaU with
    inPort := 0x1001F, endpointData := some epdC10,
    policyData := some { aclActions :=
      [{ aclGID := 5, actionFlags := ACTION_PACKET_CAPTURING }] } }

/-! ## Theorems -/

/-- Packing `(ip << 32) | (gid << 16) | tap` is plain positional addition
when the two low fields fit their 16-bit slots. -/
theorem key_pack_eq (ip gid tap : Nat) (hgid : gid < 2 ^ 16) (htap : tap < 2 ^ 16) :
    getWriterKey ip gid tap = ip * 2 ^ 32 + gid * 2 ^ 16 + tap := by
  unfold getWriterKey
  have h1 : gid <<< 16 ||| tap = gid * 2 ^ 16 + tap := by
    rw [Nat.shiftLeft_eq, Nat.mul_comm gid]
    exact (Nat.mul_add_lt_is_or htap gid).symm
  have h2 : gid * 2 ^ 16 + tap < 2 ^ 32 := by
    have hb : gid * 2 ^ 16 ≤ (2 ^ 16 - 1) * 2 ^ 16 :=
      Nat.mul_le_mul_right _ (by omega)
    have : (2 ^ 16 - 1) * 2 ^ 16 + 2 ^ 16 = 2 ^ 32 := by norm_num
    omega
  calc (ip <<< 32) ||| (gid <<< 16) ||| tap
      = (ip <<< 32) ||| ((gid <<< 16) ||| tap) := Nat.or_assoc _ _ _
    _ = (ip <<< 32) ||| (gid * 2 ^ 16 + tap) := by rw [h1]
    _ = ip * 2 ^ 32 + (gid * 2 ^ 16 + tap) := by
        rw [Nat.shiftLeft_eq, Nat.mul_comm ip]
        exact (Nat.mul_add_lt_is_or h2 ip).symm
    _ = ip * 2 ^ 32 + gid * 2 ^ 16 + tap := by omega

/-- C3: the IPv4 file-identity key `(ipv4 << 32) | (aclGID << 16) | tapType`
is injective on triples within the Go types' ranges (`ipv4 : uint32`,
`aclGID : uint16`-valued, `tapType` below 2^16): equal keys imply equal
triples. -/
theorem claim_C3 (ip1 gid1 tap1 ip2 gid2 tap2 : Nat)
    (hip1 : ip1 < 2 ^ 32) (hgid1 : gid1 < 2 ^ 16) (htap1 : tap1 < 2 ^ 16)
    (hip2 : ip2 < 2 ^ 32) (hgid2 : gid2 < 2 ^ 16) (htap2 : tap2 < 2 ^ 16)
    (hkey : getWriterKey ip1 gid1 tap1 = getWriterKey ip2 gid2 tap2) :
    ip1 = ip2 ∧ gid1 = gid2 ∧ tap1 = tap2 := by
  rw [key_pack_eq ip1 gid1 tap1 hgid1 htap1,
      key_pack_eq ip2 gid2 tap2 hgid2 htap2] at hkey
  refine ⟨?_, ?_, ?_⟩ <;> omega

/-- Witness for C3 at the concrete triple (10, 20, 3). -/
theorem claim_C3_witness : (10 : Nat) = 10 ∧ (20 : Nat) = 20 ∧ (3 : Nat) = 3 :=
  claim_C3 10 20 3 10 20 3 (by norm_num) (by norm_num) (by norm_num)
    (by norm_num) (by norm_num) (by norm_num) rfl

/-- C2: `tapTypeToString` maps ToR (= 3) to `"tor"`, every other value up
to 30 to `"isp<N>"`, and panics (`none`) beyond 30; the two overlapping
rules are ordered as in the source, ToR first. -/
theorem claim_C2 :
    tapTypeToString ToR = some "tor" ∧
    (∀ n : Nat, n ≤ 30 → n ≠ ToR → tapTypeToString n = some ("isp" ++ toString n)) ∧
    (∀ n : Nat, 30 < n → tapTypeToString n = none) := by
  refine ⟨rfl, ?_, ?_⟩
  · intro n hle hne
    have h3 : ¬n = 3 := by simpa [ToR] using hne
    simp [tapTypeToString, h3, hle]
  · intro n hgt
    have h3 : ¬n = 3 := by omega
    have hle : ¬n ≤ 30 := by omega
    simp [tapTypeToString, h3, hle]

/-- Witness for C2 at 3, 5 and 31. -/
theorem claim_C2_witness :
    tapTypeToString 3 = some "tor" ∧
    tapTypeToString 5 = some ("isp" ++ toString 5) ∧
    tapTypeToString 31 = none :=
  ⟨claim_C2.1, claim_C2.2.1 5 (by norm_num) (by decide), claim_C2.2.2 31 (by norm_num)⟩

/-- C1 as stated is false: `generateWrappedWriter` checks only the IPv4
map's size. `workerC1` holds one open (IPv6) writer with a cap of 1 — its
open-writer count is at the cap — yet the call creates a writer
(`FileCreations` becomes 1) and does not increment `FileRejections`. -/
theorem claim_C1_counterexample :
    workerC1.maxConcurrentFiles ≤ openWriterCount workerC1 ∧
    (generateWrappedWriter workerC1 true (IpAddr.v4 5) 7 3 9 0).map
      (fun r => (r.1.isSome, r.2.counter.FileRejections, r.2.counter.FileCreations))
      = some (true, 0, 1) :=
  ⟨by decide, by rfl⟩

/-- C1 amended: if the worker's count of open IPv4-keyed writers
(`len(writers)`; IPv6-bucket writers are not counted) is at least
`maxConcurrentFiles`, the call returns nil, increments `FileRejections` by
1, and changes nothing else — no writer, no file. -/
theorem claim_C1_amended (w : Worker) (ioOk : Bool) (ip : IpAddr)
    (mac tapType aclGID : Nat) (timestamp : Int)
    (hcap : w.writers.length ≥ w.maxConcurrentFiles) :
    generateWrappedWriter w ioOk ip mac tapType aclGID timestamp =
      some (none, { w with counter :=
        { w.counter with FileRejections := w.counter.FileRejections + 1 } }) := by
  unfold generateWrappedWriter
  rw [if_pos hcap]

/-- Witness for the amended C1 on a worker whose cap is zero. -/
theorem claim_C1_witness :
    generateWrappedWriter workerC1w true (IpAddr.v4 5) 7 3 9 0 =
      some (none, { workerC1w with counter :=
        { workerC1w.counter with FileRejections := workerC1w.counter.FileRejections + 1 } }) :=
  claim_C1_amended workerC1w true (IpAddr.v4 5) 7 3 9 0 (Nat.zero_le _)

/-- C4: a packet matching no live flow in its shard, arriving with
`CurrNumFlows ≥ flowLimitNum`, only increments `FloodDropPackets`: the
shards, `CurrNumFlows` and `TotalNumFlows` are untouched. -/
theorem claim_C4 (f : FlowGenerator) (meta : MetaPacket)
    (hmatch : keyMatch (selectedShard f meta) meta = none)
    (hfull : f.stats.CurrNumFlows ≥ f.flowLimitNum) :
    processUdpPacket f meta =
      { f with stats :=
        { f.stats with FloodDropPackets := f.stats.FloodDropPackets + 1 } } := by
  unfold processUdpPacket
  simp only [hmatch]
  rw [if_pos hfull]

/-- Witness for C4: a zero-limit generator floods on the first packet. -/
theorem claim_C4_witness :
    processUdpPacket flowGenC4 metaU =
      { flowGenC4 with stats :=
        { flowGenC4.stats with FloodDropPackets := flowGenC4.stats.FloodDropPackets + 1 } } :=
  claim_C4 flowGenC4 metaU rfl (Nat.zero_le _)

/-- C5: a packet matching no live flow, with room below `flowLimitNum`,
creates a flow whose source peer carries exactly this packet
(`ArrTime0 = ArrTimeLast = timestamp`, counts 1, bytes `packetLen`),
ESTABLISHED with the `Opening` timeout; the flow is appended to the
selected shard and `CurrNumFlows` and `TotalNumFlows` both grow by 1. -/
theorem claim_C5 (f : FlowGenerator) (meta : MetaPacket)
    (hmatch : keyMatch (selectedShard f meta) meta = none)
    (hroom : f.stats.CurrNumFlows < f.flowLimitNum) :
    (initUdpFlow f meta).taggedFlow.FlowMetricsPeerSrc.arrTime0 = meta.timestamp ∧
    (initUdpFlow f meta).taggedFlow.FlowMetricsPeerSrc.arrTimeLast = meta.timestamp ∧
    (initUdpFlow f meta).taggedFlow.FlowMetricsPeerSrc.packetCount = 1 ∧
    (initUdpFlow f meta).taggedFlow.FlowMetricsPeerSrc.totalPacketCount = 1 ∧
    (initUdpFlow f meta).taggedFlow.FlowMetricsPeerSrc.byteCount = meta.packetLen ∧
    (initUdpFlow f meta).taggedFlow.FlowMetricsPeerSrc.totalByteCount = meta.packetLen ∧
    (initUdpFlow f meta).flowState = FlowState.established ∧
    (initUdpFlow f meta).timeout = f.TimeoutConfig.Opening ∧
    processUdpPacket f meta =
      { f with
        stats := { f.stats with
          TotalNumFlows := f.stats.TotalNumFlows + 1
          CurrNumFlows := f.stats.CurrNumFlows + 1 }
        hashMap := f.hashMap.set (shardIndex f meta)
          (addFlow (selectedShard f meta) (initUdpFlow f meta)) } := by
  refine ⟨rfl, rfl, rfl, rfl, rfl, rfl, rfl, rfl, ?_⟩
  unfold processUdpPacket
  simp only [hmatch]
  rw [if_neg (Nat.not_le.mpr hroom)]

/-- Witness for C5: the first packet of `flowGenC5` (limit 1). -/
theorem claim_C5_witness :
    (initUdpFlow flowGenC5 metaU).flowState = FlowState.established ∧
    (processUdpPacket flowGenC5 metaU).stats.CurrNumFlows = 1 := by
  have h := claim_C5 flowGenC5 metaU rfl (by decide)
  refine ⟨h.2.2.2.2.2.2.1, ?_⟩
  rw [h.2.2.2.2.2.2.2.2]
  rfl

/-- C6: a packet matched to a live flow (at position `i`, with reply flag
`reply`) updates that same record in place; the updated record's timeout
is `EstablishedRst` when `reply` and is left unchanged otherwise. -/
theorem claim_C6 (f : FlowGenerator) (meta : MetaPacket) (i : Nat) (reply : Bool)
    (hmatch : keyMatch (selectedShard f meta) meta = some (i, reply)) :
    processUdpPacket f meta =
      { f with hashMap := f.hashMap.set (shardIndex f meta) ((selectedShard f meta).set i (updateUdpFlow f (matchedFlow f meta i) meta reply)) } ∧
    (updateUdpFlow f (matchedFlow f meta i) meta reply).timeout =
      (if reply then f.TimeoutConfig.EstablishedRst
       else (matchedFlow f meta i).timeout) := by
  constructor
  · unfold processUdpPacket matchedFlow
    simp only [hmatch]
  · unfold updateUdpFlow updateFlow
    cases reply <;> rfl

/-- Witness for C6: the reply packet of `metaU` against its live flow. -/
theorem claim_C6_witness :
    (updateUdpFlow flowGenC6 (matchedFlow flowGenC6 metaUreply 0)
      metaUreply true).timeout = flowGenC6.TimeoutConfig.EstablishedRst := by
  have h := claim_C6 flowGenC6 metaUreply 0 true rfl
  rw [h.2]
  rfl

/-- C9: on the IPv6 path the emit set inverts its multicast gate between
tap types — ISP emits an endpoint only if its address IS multicast (with
`L3EpcId ≠ 0` and a non-broadcast MAC), ToR only if it is NOT multicast
(with the L2-end gate and a non-broadcast MAC). -/
theorem claim_C9 (packet : MetaPacket) (epd : EndpointData)
    (hv6 : packet.ethType = EthernetTypeIPv6) :
    (isISP packet.inPort = true →
      deriveTapAndEmit packet epd = some
        { tapType := packet.inPort - 0x10000
          ips := []
          ip6s :=
            (if epd.srcInfo.l3EpcId ≠ 0 ∧ packet.ip6Src.isMulticast = true ∧
                packet.macSrc ≠ BROADCAST_MAC
             then [(packet.ip6Src, packet.macSrc)] else []) ++
            (if epd.dstInfo.l3EpcId ≠ 0 ∧ packet.ip6Dst.isMulticast = true ∧
                packet.macDst ≠ BROADCAST_MAC
             then [(packet.ip6Dst, packet.macDst)] else []) }) ∧
    (isTOR packet.inPort = true →
      deriveTapAndEmit packet epd = some
        { tapType := ToR
          ips := []
          ip6s :=
            (if (packet.l2End0 = true ∨ epd.srcInfo.l2End = true) ∧
                packet.ip6Src.isMulticast = false ∧ packet.macSrc ≠ BROADCAST_MAC
             then [(packet.ip6Src, packet.macSrc)] else []) ++
            (if (packet.l2End1 = true ∨ epd.dstInfo.l2End = true) ∧
                packet.ip6Dst.isMulticast = false ∧ packet.macDst ≠ BROADCAST_MAC
             then [(packet.ip6Dst, packet.macDst)] else []) }) := by
  constructor
  · intro hisp
    unfold deriveTapAndEmit
    rw [hisp, if_pos rfl]
    rw [if_neg (by simp [hv6])]
    split_ifs <;> simp_all
  · intro htor
    have hnisp : isISP packet.inPort = false := by
      unfold isISP
      unfold isTOR at htor
      simp only [decide_eq_true_eq] at htor
      simp only [decide_eq_false_iff_not]
      omega
    unfold deriveTapAndEmit
    rw [hnisp]
    simp only [Bool.false_eq_true, if_false]
    rw [htor, if_pos rfl]
    rw [if_neg (by simp [hv6])]
    split_ifs <;> simp_all

/-- Witness for C9: one ISP packet with a multicast source and one ToR
packet with a unicast source, each emitting exactly that source. -/
theorem claim_C9_witness :
    deriveTapAndEmit packetC9isp epdC9 =
      some { tapType := 5, ips := [],
             ip6s := [(packetC9isp.ip6Src, packetC9isp.macSrc)] } ∧
    deriveTapAndEmit packetC9tor epdC9 =
      some { tapType := ToR, ips := [],
             ip6s := [(packetC9tor.ip6Src, packetC9tor.macSrc)] } := by
  constructor
  · have h := (claim_C9 packetC9isp epdC9 rfl).1 rfl
    rw [h]
    decide
  · have h := (claim_C9 packetC9tor epdC9 rfl).2 rfl
    rw [h]
    decide

/-- C10: an ISP packet with `InPort = 0x1001F` (tap type 31), a non-empty
emit set and a capturing policy action, on a worker below its file cap,
panics while formatting the new writer's temp filename, because
`tapTypeToString` rejects tap types above 30. -/
theorem claim_C10 :
    isISP packetC10.inPort = true ∧
    packetC10.inPort - 0x10000 = 31 ∧
    tapTypeToString 31 = none ∧
    deriveTapAndEmit packetC10 epdC10 =
      some { tapType := 31, ips := [(packetC10.ipSrc, packetC10.macSrc)], ip6s := [] } ∧
    baseWorker.writers.length < baseWorker.maxConcurrentFiles ∧
    processPacket baseWorker { newWriterOk := true, writeOk := true } packetC10 = none := by
  refine ⟨rfl, rfl, rfl, by decide, by decide, by rfl⟩

/-- `finishWriter` only changes counters. -/
@[simp] theorem finishWriter_maxFilePeriod (w : Worker) (wr : WrappedWriter) (fn : String) :
    (finishWriter w wr fn).maxFilePeriod = w.maxFilePeriod := rfl

/-- `finishWriter` only changes counters. -/
@[simp] theorem finishWriter_writersIpv6 (w : Worker) (wr : WrappedWriter) (fn : String) :
    (finishWriter w wr fn).writersIpv6 = w.writersIpv6 := rfl

/-- The IPv4 tick sweep keeps exactly the writers whose age is within
`maxFilePeriod`, and touches only counters. -/
theorem tickSweepV4_spec (t : Int) (l : List (Nat × WrappedWriter)) :
    ∀ (w w' : Worker) (kept : List (Nat × WrappedWriter)),
      tickSweepV4 t w l = some (w', kept) →
      kept = l.filter (fun e => decide (t - e.2.firstPacketTime ≤ w.maxFilePeriod)) ∧
      w'.maxFilePeriod = w.maxFilePeriod ∧ w'.writersIpv6 = w.writersIpv6 := by
  induction l with
  | nil =>
    intro w w' kept h
    simp only [tickSweepV4, Option.some.injEq, Prod.mk.injEq] at h
    obtain ⟨hw, hk⟩ := h
    subst hw
    subst hk
    exact ⟨rfl, rfl, rfl⟩
  | cons e rest ih =>
    intro w w' kept h
    simp only [tickSweepV4] at h
    by_cases hc : t - e.2.firstPacketTime > w.maxFilePeriod
    · rw [if_pos hc] at h
      cases hfn : e.2.getFilename w.baseDirectory with
      | none => rw [hfn] at h; simp at h
      | some fn =>
        rw [hfn] at h
        obtain ⟨hk, hp, hi⟩ := ih (finishWriter w e.2 fn) w' kept h
        have hcf : decide (t - e.2.firstPacketTime ≤ w.maxFilePeriod) = false := by
          simp only [decide_eq_false_iff_not]
          exact not_le.mpr hc
        refine ⟨?_, ?_, ?_⟩
        · rw [hk, finishWriter_maxFilePeriod, List.filter_cons, hcf]
          simp
        · rw [hp, finishWriter_maxFilePeriod]
        · rw [hi, finishWriter_writersIpv6]
    · rw [if_neg hc] at h
      cases hrec : tickSweepV4 t w rest with
      | none => rw [hrec] at h; simp at h
      | some pr =>
        obtain ⟨w1, kept1⟩ := pr
        rw [hrec] at h
        simp only [Option.some.injEq, Prod.mk.injEq] at h
        obtain ⟨hw, hk⟩ := h
        subst hw
        obtain ⟨hk1, hp1, hi1⟩ := ih w w1 kept1 hrec
        have hct : decide (t - e.2.firstPacketTime ≤ w.maxFilePeriod) = true :=
          decide_eq_true (not_lt.mp hc)
        refine ⟨?_, hp1, hi1⟩
        rw [← hk, List.filter_cons, hct, hk1]
        simp

/-- One IPv6 bucket's tick sweep keeps exactly the in-period writers and
touches only counters. -/
theorem tickSweepBucket_spec (t : Int) (l : List WrappedWriter) :
    ∀ (w w' : Worker) (kept : List WrappedWriter),
      tickSweepBucket t w l = some (w', kept) →
      kept = l.filter (fun x => decide (t - x.firstPacketTime ≤ w.maxFilePeriod)) ∧
      w'.maxFilePeriod = w.maxFilePeriod := by
  induction l with
  | nil =>
    intro w w' kept h
    simp only [tickSweepBucket, Option.some.injEq, Prod.mk.injEq] at h
    obtain ⟨hw, hk⟩ := h
    subst hw
    subst hk
    exact ⟨rfl, rfl⟩
  | cons x rest ih =>
    intro w w' kept h
    simp only [tickSweepBucket] at h
    by_cases hc : t - x.firstPacketTime > w.maxFilePeriod
    · rw [if_pos hc] at h
      cases hfn : x.getFilename w.baseDirectory with
      | none => rw [hfn] at h; simp at h
      | some fn =>
        rw [hfn] at h
        obtain ⟨hk, hp⟩ := ih (finishWriter w x fn) w' kept h
        have hcf : decide (t - x.firstPacketTime ≤ w.maxFilePeriod) = false := by
          simp only [decide_eq_false_iff_not]
          exact not_le.mpr hc
        refine ⟨?_, ?_⟩
        · rw [hk, finishWriter_maxFilePeriod, List.filter_cons, hcf]
          simp
        · rw [hp, finishWriter_maxFilePeriod]
    · rw [if_neg hc] at h
      cases hrec : tickSweepBucket t w rest with
      | none => rw [hrec] at h; simp at h
      | some pr =>
        obtain ⟨w1, kept1⟩ := pr
        rw [hrec] at h
        simp only [Option.some.injEq, Prod.mk.injEq] at h
        obtain ⟨hw, hk⟩ := h
        subst hw
        obtain ⟨hk1, hp1⟩ := ih w w1 kept1 hrec
        have hct : decide (t - x.firstPacketTime ≤ w.maxFilePeriod) = true :=
          decide_eq_true (not_lt.mp hc)
        refine ⟨?_, hp1⟩
        rw [← hk, List.filter_cons, hct, hk1]
        simp

/-- The IPv6 tick sweep filters every bucket in place (buckets are never
removed) and touches only counters. -/
theorem tickSweepV6_spec (t : Int) (l : List (Nat × List WrappedWriter)) :
    ∀ (w w' : Worker) (kept : List (Nat × List WrappedWriter)),
      tickSweepV6 t w l = some (w', kept) →
      kept = l.map (fun e =>
        (e.1, e.2.filter (fun x => decide (t - x.firstPacketTime ≤ w.maxFilePeriod)))) ∧
      w'.maxFilePeriod = w.maxFilePeriod := by
  induction l with
  | nil =>
    intro w w' kept h
    simp only [tickSweepV6, Option.some.injEq, Prod.mk.injEq] at h
    obtain ⟨hw, hk⟩ := h
    subst hw
    subst hk
    exact ⟨rfl, rfl⟩
  | cons e rest ih =>
    intro w w' kept h
    simp only [tickSweepV6] at h
    cases hb : tickSweepBucket t w e.2 with
    | none => rw [hb] at h; simp at h
    | some pr =>
      obtain ⟨w1, keptB⟩ := pr
      simp only [hb] at h
      cases hrec : tickSweepV6 t w1 rest with
      | none => simp only [hrec] at h; simp at h
      | some pr2 =>
        obtain ⟨w2, keptR⟩ := pr2
        simp only [hrec] at h
        simp only [Option.some.injEq, Prod.mk.injEq] at h
        obtain ⟨hw, hk⟩ := h
        subst hw
        obtain ⟨hkB, hpB⟩ := tickSweepBucket_spec t e.2 w w1 keptB hb
        obtain ⟨hkR, hpR⟩ := ih w1 w2 keptR hrec
        refine ⟨?_, hpR.trans hpB⟩
        rw [← hk, List.map_cons, hkB, hkR, hpB]

/-- C7: `shouldCloseFile` is true exactly when the size cap is reached or
the packet is beyond `maxFilePeriod` after the file's first packet; the
tick handler closes writers (IPv4 map and IPv6 buckets alike) based only
on the time condition, with wall-clock `timeNow` in the packet's place. -/
theorem claim_C7 :
    (∀ (w : Worker) (writer : WrappedWriter) (packet : MetaPacket),
      shouldCloseFile w writer packet = true ↔
        (writer.writer.fileSize + writer.writer.bufferSize ≥ w.maxFileSize ∨
         packet.timestamp - writer.firstPacketTime > w.maxFilePeriod)) ∧
    (∀ (w w' : Worker) (timeNow : Int),
      processTick w timeNow = some w' →
      w'.writers = w.writers.filter
        (fun e => decide (timeNow - e.2.firstPacketTime ≤ w.maxFilePeriod)) ∧
      w'.writersIpv6 = w.writersIpv6.map (fun e =>
        (e.1, e.2.filter (fun x => decide (timeNow - x.firstPacketTime ≤ w.maxFilePeriod))))) := by
  constructor
  · intro w writer packet
    unfold shouldCloseFile
    split_ifs with h1 h2 <;> simp_all
  · intro w w' timeNow h
    unfold processTick at h
    cases h4 : tickSweepV4 timeNow w w.writers with
    | none => rw [h4] at h; simp at h
    | some pr =>
      obtain ⟨w1, kept4⟩ := pr
      simp only [h4] at h
      cases h6 : tickSweepV6 timeNow w1 w1.writersIpv6 with
      | none => simp only [h6] at h; simp at h
      | some pr2 =>
        obtain ⟨w2, kept6⟩ := pr2
        simp only [h6] at h
        simp only [Option.some.injEq] at h
        obtain ⟨hk4, hp4, hi4⟩ := tickSweepV4_spec timeNow w.writers w w1 kept4 h4
        obtain ⟨hk6, _⟩ := tickSweepV6_spec timeNow w1.writersIpv6 w1 w2 kept6 h6
        constructor
        · rw [← h]
          exact hk4
        · rw [← h]
          show kept6 = _
          rw [hk6, hi4, hp4]

/-- Witness for C7: a full file must close, and the tick on `workerC7`
(one writer aged 100 ns against a 10 ns period cap) sweeps its map
empty. -/
theorem claim_C7_witness :
    shouldCloseFile baseWorker writerC7big metaU = true ∧
    ((processTick workerC7 100).getD workerC7).writers =
      workerC7.writers.filter
        (fun e => decide ((100 : Int) - e.2.firstPacketTime ≤ workerC7.maxFilePeriod)) := by
  constructor
  · exact (claim_C7.1 baseWorker writerC7big metaU).mpr (Or.inl (by decide))
  · exact (claim_C7.2 workerC7 ((processTick workerC7 100).getD workerC7) 100 (by rfl)).1

/-- Looking a key up right after inserting it yields the inserted value. -/
theorem mapFind_mapInsert_self {α : Type} (m : List (Nat × α)) (k : Nat) (v : α) :
    mapFind (mapInsert m k v) k = some v := by
  induction m with
  | nil => simp [mapInsert, mapFind]
  | cons e rest ih =>
    by_cases h : e.1 = k
    · simp [mapInsert, mapFind, h]
    · simp [mapInsert, mapFind, h, ih]

/-- Tap types up to 30 format without panicking. -/
theorem tapTypeToString_le30 (n : Nat) (h : n ≤ 30) : ∃ s, tapTypeToString n = some s := by
  unfold tapTypeToString
  by_cases h3 : n = 3
  · exact ⟨"tor", by simp [h3]⟩
  · exact ⟨"isp" ++ toString n, by simp [h3, h]⟩

/-- C8: IPv6 writers are routed by full 16-byte address equality, never by
hashed key alone — the bucket scan only ever returns a writer storing
exactly the probed address — and two distinct addresses with colliding
keys yield two separate writers in the same bucket: probing a one-writer
bucket with a colliding but different address creates a second writer
whose address is the new one, leaving both in that bucket. -/
theorem claim_C8 :
    (∀ (bucket : List WrappedWriter) (ip : IPv6) (wr : WrappedWriter),
      bucketFind bucket ip = some wr → wr.ip6 = some ip) ∧
    (∀ (w : Worker) (io : IOEnv) (ip1 ip2 : IPv6) (mac tapType aclGID : Nat)
       (packet : MetaPacket) (wr1 : WrappedWriter),
      ip1 ≠ ip2 →
      getWriterIpv6Key ip2 aclGID tapType = getWriterIpv6Key ip1 aclGID tapType →
      mapFind w.writersIpv6 (getWriterIpv6Key ip1 aclGID tapType) = some [wr1] →
      wr1.ip6 = some ip1 →
      w.writers.length < w.maxConcurrentFiles →
      io.newWriterOk = true →
      tapType ≤ 30 →
      ∃ (wr2 : WrappedWriter) (w2 : Worker),
        getWrappedWriter w io ip2 mac tapType aclGID packet = some (some wr2, w2) ∧
        wr2.ip6 = some ip2 ∧
        mapFind w2.writersIpv6 (getWriterIpv6Key ip1 aclGID tapType) = some [wr1, wr2]) := by
  constructor
  · intro bucket ip wr h
    induction bucket with
    | nil => simp [bucketFind] at h
    | cons e rest ih =>
      simp only [bucketFind] at h
      by_cases hc : e.ip6 = some ip
      · rw [if_pos hc] at h
        injection h with h1
        subst h1
        exact hc
      · rw [if_neg hc] at h
        exact ih h
  · intro w io ip1 ip2 mac tapType aclGID packet wr1 hne hkey hfind hip6 hcap hio htap
    obtain ⟨s, hs⟩ := tapTypeToString_le30 tapType htap
    have hbf : bucketFind [wr1] ip2 = none := by
      have hcond : ¬wr1.ip6 = some ip2 := by
        rw [hip6]
        simp only [Option.some.injEq]
        exact hne
      simp [bucketFind, hcond]
    have hgen : generateWrappedWriter w io.newWriterOk (IpAddr.v6 ip2) mac tapType aclGID
        packet.timestamp =
        some (some
          { writer := Writer.new, tapType := tapType, aclGID := aclGID, ip := 0,
            ip6 := some ip2, mac := mac, tid := w.index,
            tempFilename := w.baseDirectory ++ "/" ++ toString aclGID ++ "/" ++
              (s ++ "_" ++ macToString mac ++ "_" ++ ip6ToString ip2 ++ "_" ++
               formatDuration packet.timestamp ++ "_." ++ toString w.index ++ ".pcap.temp"),
            firstPacketTime := packet.timestamp, lastPacketTime := packet.timestamp },
          { w with counter :=
            { w.counter with FileCreations := w.counter.FileCreations + 1 } }) := by
      unfold generateWrappedWriter
      rw [if_neg (Nat.not_le.mpr hcap)]
      simp only [WrappedWriter.getTempFilename, getTempFilenameByIpv6, hs, Option.map_some',
        hio, if_true]
    let wrN : WrappedWriter :=
      { writer := Writer.new, tapType := tapType, aclGID := aclGID, ip := 0,
        ip6 := some ip2, mac := mac, tid := w.index,
        tempFilename := w.baseDirectory ++ "/" ++ toString aclGID ++ "/" ++
          (s ++ "_" ++ macToString mac ++ "_" ++ ip6ToString ip2 ++ "_" ++
           formatDuration packet.timestamp ++ "_." ++ toString w.index ++ ".pcap.temp"),
        firstPacketTime := packet.timestamp, lastPacketTime := packet.timestamp }
    have hmain : getWrappedWriter w io ip2 mac tapType aclGID packet =
        some (some wrN,
          { w with
            counter := { w.counter with FileCreations := w.counter.FileCreations + 1 },
            writersIpv6 := mapInsert w.writersIpv6 (getWriterIpv6Key ip1 aclGID tapType)
              [wr1, wrN] }) := by
      unfold getWrappedWriter
      rw [hkey]
      simp only [hfind, Option.getD_some, hbf, hgen, List.cons_append, List.nil_append]
    exact ⟨wrN, _, hmain, rfl, mapFind_mapInsert_self _ _ _⟩

/-- Witness for C8: `ip6a = (1,0,0,0)` and `ip6b = (0,1,0,0)` collide on
the xor hash; probing `workerC8`'s one-writer bucket with `ip6b` leaves a
two-writer bucket. -/
theorem claim_C8_witness :
    (getWrappedWriter workerC8 { newWriterOk := true, writeOk := true } ip6b 7 4 9 metaU).map
      (fun r => (mapFind r.2.writersIpv6 (getWriterIpv6Key ip6a 9 4)).map
        (fun b => (b.length, b.map (fun x => x.ip6)))) =
      some (some (2, [some ip6a, some ip6b])) := by
  obtain ⟨wr2, w2, heq, hip, hfind⟩ :=
    claim_C8.2 workerC8 { newWriterOk := true, writeOk := true } ip6a ip6b 7 4 9 metaU writerC8
      (by decide) (by decide) (by decide) rfl (by decide) rfl (by norm_num)
  rw [heq]
  simp [hfind, hip, writerC8]

end Droplet
